import Mathlib

/-!
Verification development for the BME280 I2C sensor driver (C implementation).

The C sources are shallowly embedded:
* machine integers become `ℕ` / `ℤ` with explicit `% 2^w` where the C code
  casts (`(uint16_t)`, `(int16_t)`, `(int8_t)`, `(int32_t)`);
* the single-precision float arithmetic of the compensation formulas is
  embedded as exact rational arithmetic over `ℚ` (the ideal value of each
  formula); division is Lean's total division on `ℚ`, whose value at a zero
  denominator is the junk value `0`;
* the I2C transport (open / ioctl / write / read) is an external collaborator:
  each driver entry point takes a bus record describing the outcomes of its
  transport calls, and returns the list of transport operations it attempted.
-/

namespace BME280

/-! ## C integer casts -/

/-- The C cast `(uint16_t) n` of a nonnegative value held in an `int`. -/
def toUInt16 (n : ℕ) : ℕ := n % 65536

/-- The C cast `(int16_t) n` of a nonnegative value held in an `int`:
reduce mod 2^16 and reinterpret the 16-bit pattern in two's complement. -/
def toInt16 (n : ℕ) : ℤ :=
  if n % 65536 < 32768 then ((n % 65536 : ℕ) : ℤ) else ((n % 65536 : ℕ) : ℤ) - 65536

/-- The C cast `(int8_t) n` of a byte value. -/
def toInt8 (n : ℕ) : ℤ :=
  if n % 256 < 128 then ((n % 256 : ℕ) : ℤ) else ((n % 256 : ℕ) : ℤ) - 256

/-- Two's-complement 16-bit pattern of an integer (used by the spec-side
encoder of calibration words). -/
def bits16 (v : ℤ) : ℕ := (v % 65536).toNat

/-- Two's-complement 12-bit pattern of an integer (used by the spec-side
encoder of the packed H4/H5 fields). -/
def bits12 (v : ℤ) : ℕ := (v % 4096).toNat

/-- Two's-complement 8-bit pattern of an integer. -/
def bits8 (v : ℤ) : ℕ := (v % 256).toNat

/-! ## Data model (bme280.h) -/

/-- Error codes, mirroring `bme280_error_t`. -/
inductive Error where
  | ok
  | errBusOpen
  | errAddrSet
  | errWrite
  | errRead
  | errNullPtr
  | errNotInit
deriving DecidableEq, Repr

/-- Temperature calibration coefficients, mirroring `bme280_calib_temp_t`.
`dig_T1` holds a `uint16_t` value, the others `int16_t` values. -/
structure CalibTemp where
  dig_T1 : ℕ
  dig_T2 : ℤ
  dig_T3 : ℤ
deriving DecidableEq, Repr

/-- Pressure calibration coefficients, mirroring `bme280_calib_press_t`. -/
structure CalibPress where
  dig_P1 : ℕ
  dig_P2 : ℤ
  dig_P3 : ℤ
  dig_P4 : ℤ
  dig_P5 : ℤ
  dig_P6 : ℤ
  dig_P7 : ℤ
  dig_P8 : ℤ
  dig_P9 : ℤ
deriving DecidableEq, Repr

/-- Humidity calibration coefficients, mirroring `bme280_calib_hum_t`.
`dig_H1`, `dig_H3` hold `uint8_t` values; `dig_H2`, `dig_H4`, `dig_H5`
hold `int16_t` values; `dig_H6` holds an `int8_t` value. -/
structure CalibHum where
  dig_H1 : ℕ
  dig_H2 : ℤ
  dig_H3 : ℕ
  dig_H4 : ℤ
  dig_H5 : ℤ
  dig_H6 : ℤ
deriving DecidableEq, Repr

/-- Combined calibration data, mirroring `bme280_calib_t`. -/
structure Calib where
  temp : CalibTemp
  press : CalibPress
  hum : CalibHum
deriving DecidableEq, Repr

/-- Field widths declared by `bme280.h` (and §3 of the design):
T1, P1 unsigned 16-bit; T2, T3, P2..P9, H2 signed 16-bit; H1, H3 unsigned
8-bit; H4, H5 signed 12-bit; H6 signed 8-bit. -/
def calibWf (c : Calib) : Prop :=
  c.temp.dig_T1 < 65536 ∧
  -32768 ≤ c.temp.dig_T2 ∧ c.temp.dig_T2 < 32768 ∧
  -32768 ≤ c.temp.dig_T3 ∧ c.temp.dig_T3 < 32768 ∧
  c.press.dig_P1 < 65536 ∧
  -32768 ≤ c.press.dig_P2 ∧ c.press.dig_P2 < 32768 ∧
  -32768 ≤ c.press.dig_P3 ∧ c.press.dig_P3 < 32768 ∧
  -32768 ≤ c.press.dig_P4 ∧ c.press.dig_P4 < 32768 ∧
  -32768 ≤ c.press.dig_P5 ∧ c.press.dig_P5 < 32768 ∧
  -32768 ≤ c.press.dig_P6 ∧ c.press.dig_P6 < 32768 ∧
  -32768 ≤ c.press.dig_P7 ∧ c.press.dig_P7 < 32768 ∧
  -32768 ≤ c.press.dig_P8 ∧ c.press.dig_P8 < 32768 ∧
  -32768 ≤ c.press.dig_P9 ∧ c.press.dig_P9 < 32768 ∧
  c.hum.dig_H1 < 256 ∧
  -32768 ≤ c.hum.dig_H2 ∧ c.hum.dig_H2 < 32768 ∧
  c.hum.dig_H3 < 256 ∧
  -2048 ≤ c.hum.dig_H4 ∧ c.hum.dig_H4 < 2048 ∧
  -2048 ≤ c.hum.dig_H5 ∧ c.hum.dig_H5 < 2048 ∧
  -128 ≤ c.hum.dig_H6 ∧ c.hum.dig_H6 < 128

instance (c : Calib) : Decidable (calibWf c) := by
  unfold calibWf; infer_instance

/-! ## Calibration parser (BME280.c, lines 116-160)

The buffers are the bytes delivered by the three register reads: 24 bytes
from 0x88, 1 byte from 0xA1, 7 bytes from 0xE1.  Each C expression
`buf[i] | (buf[j] << 8)` etc. is kept bit-for-bit. -/

/-- Lines 116-118: temperature coefficients from the 24-byte block. -/
def parseTemp (buf : Fin 24 → ℕ) : CalibTemp :=
  { dig_T1 := toUInt16 (buf 0 ||| buf 1 <<< 8)
    dig_T2 := toInt16 (buf 2 ||| buf 3 <<< 8)
    dig_T3 := toInt16 (buf 4 ||| buf 5 <<< 8) }

/-- Lines 121-129: pressure coefficients from the 24-byte block. -/
def parsePress (buf : Fin 24 → ℕ) : CalibPress :=
  { dig_P1 := toUInt16 (buf 6 ||| buf 7 <<< 8)
    dig_P2 := toInt16 (buf 8 ||| buf 9 <<< 8)
    dig_P3 := toInt16 (buf 10 ||| buf 11 <<< 8)
    dig_P4 := toInt16 (buf 12 ||| buf 13 <<< 8)
    dig_P5 := toInt16 (buf 14 ||| buf 15 <<< 8)
    dig_P6 := toInt16 (buf 16 ||| buf 17 <<< 8)
    dig_P7 := toInt16 (buf 18 ||| buf 19 <<< 8)
    dig_P8 := toInt16 (buf 20 ||| buf 21 <<< 8)
    dig_P9 := toInt16 (buf 22 ||| buf 23 <<< 8) }

/-- Lines 142 and 156-160: humidity coefficients; `h1` is the single byte
read from register 0xA1, `buf` the 7-byte block read from 0xE1. -/
def parseHum (h1 : ℕ) (buf : Fin 7 → ℕ) : CalibHum :=
  { dig_H1 := h1
    dig_H2 := toInt16 (buf 0 ||| buf 1 <<< 8)
    dig_H3 := buf 2
    dig_H4 := toInt16 (buf 3 <<< 4 ||| buf 4 &&& 0x0F)
    dig_H5 := toInt16 ((buf 4 >>> 4) &&& 0x0F ||| buf 5 <<< 4)
    dig_H6 := toInt8 (buf 6) }

/-- The whole calibration parser of `bme280_read_calibration` as one pure
function of the three delivered buffers. -/
def parseCalibration (buf : Fin 24 → ℕ) (h1 : ℕ) (hbuf : Fin 7 → ℕ) : Calib :=
  { temp := parseTemp buf
    press := parsePress buf
    hum := parseHum h1 hbuf }

/-! ## Encoder of the §4.1 field layout (spec side, for the round-trip claim)

Written from §4.1 of the design: 12 little-endian 16-bit words T1,T2,T3,
P1..P9 in the 24-byte block; H1 as one byte; H2 little-endian, H3 a byte,
H4/H5 packed 12-bit (byte 3 = bits 11..4 of H4, byte 4 = low nibble of H4
and bits 3..0 of H5, byte 5 = bits 11..4 of H5), H6 a byte. -/

/-- Byte `i` of the 24-byte temperature/pressure block encoding `c`. -/
def tpByte (c : Calib) : ℕ → ℕ
  | 0 => c.temp.dig_T1 % 256
  | 1 => c.temp.dig_T1 / 256
  | 2 => bits16 c.temp.dig_T2 % 256
  | 3 => bits16 c.temp.dig_T2 / 256
  | 4 => bits16 c.temp.dig_T3 % 256
  | 5 => bits16 c.temp.dig_T3 / 256
  | 6 => c.press.dig_P1 % 256
  | 7 => c.press.dig_P1 / 256
  | 8 => bits16 c.press.dig_P2 % 256
  | 9 => bits16 c.press.dig_P2 / 256
  | 10 => bits16 c.press.dig_P3 % 256
  | 11 => bits16 c.press.dig_P3 / 256
  | 12 => bits16 c.press.dig_P4 % 256
  | 13 => bits16 c.press.dig_P4 / 256
  | 14 => bits16 c.press.dig_P5 % 256
  | 15 => bits16 c.press.dig_P5 / 256
  | 16 => bits16 c.press.dig_P6 % 256
  | 17 => bits16 c.press.dig_P6 / 256
  | 18 => bits16 c.press.dig_P7 % 256
  | 19 => bits16 c.press.dig_P7 / 256
  | 20 => bits16 c.press.dig_P8 % 256
  | 21 => bits16 c.press.dig_P8 / 256
  | 22 => bits16 c.press.dig_P9 % 256
  | 23 => bits16 c.press.dig_P9 / 256
  | _ => 0

/-- The 24-byte temperature/pressure buffer encoding `c` per §4.1. -/
def encodeTP (c : Calib) : Fin 24 → ℕ := fun i => tpByte c i.val

/-- The 1-byte humidity block 1 buffer encoding `c` per §4.1. -/
def encodeHum1 (c : Calib) : ℕ := c.hum.dig_H1

/-- Byte `i` of the 7-byte humidity block 2 encoding `c` per §4.1. -/
def humByte (c : Calib) : ℕ → ℕ
  | 0 => bits16 c.hum.dig_H2 % 256
  | 1 => bits16 c.hum.dig_H2 / 256
  | 2 => c.hum.dig_H3
  | 3 => bits12 c.hum.dig_H4 / 16
  | 4 => (bits12 c.hum.dig_H5 % 16) * 16 + bits12 c.hum.dig_H4 % 16
  | 5 => bits12 c.hum.dig_H5 / 16
  | _ => bits8 c.hum.dig_H6

/-- The 7-byte humidity block 2 buffer encoding `c` per §4.1. -/
def encodeHum2 (c : Calib) : Fin 7 → ℕ := fun i => humByte c i.val

/-! ## Context and output structures (bme280.h) -/

/-- Device context, mirroring `bme280_ctx_t`. -/
structure Ctx where
  fd : ℤ
  address : ℕ
  calib : Calib
  t_fine : ℤ
deriving DecidableEq, Repr

/-- Computed sensor readings, mirroring `bme280_data_t`.  The C `float`
fields are embedded as exact rationals. -/
structure DataOut where
  temperature_c : ℚ
  temperature_f : ℚ
  pressure_hpa : ℚ
  humidity_rh : ℚ
deriving DecidableEq, Repr

/-! ## Transport collaborator

Each entry point receives the outcomes of the transport calls it would make
(return values of `open`/`ioctl`/`write`/`read` and the bytes a read
delivers), and reports the operations it actually attempted as a trace. -/

/-- A transport operation attempted by the driver. -/
inductive Op where
  | openBus
  | bindAddr (address : ℕ)
  | closeFd (fd : ℤ)
  | wrBytes (bytes : List ℕ)
  | rdBytes (count : ℕ)
deriving DecidableEq, Repr

/-- Outcomes of the transport calls of `bme280_init`: the `open` return
value and the `ioctl` return value. -/
structure InitBus where
  openRes : ℤ
  bindRes : ℤ
deriving DecidableEq, Repr

/-- Outcomes of the transport calls of `bme280_read_calibration`: three
write/read pairs (24, 1 and 7 bytes) with the delivered buffers. -/
structure CalBus where
  wr1 : ℤ
  rd1 : ℤ
  buf1 : Fin 24 → ℕ
  wr2 : ℤ
  rd2 : ℤ
  buf2 : ℕ
  wr3 : ℤ
  rd3 : ℤ
  buf3 : Fin 7 → ℕ

/-- Outcomes of the three 2-byte configuration writes of `bme280_configure`. -/
structure CfgBus where
  wr1 : ℤ
  wr2 : ℤ
  wr3 : ℤ
deriving DecidableEq, Repr

/-- Outcomes of the transport calls of `bme280_read_data`: one 1-byte write
and one 8-byte read with the delivered buffer. -/
structure DataBus where
  wr : ℤ
  rd : ℤ
  buf : Fin 8 → ℕ

/-! ## Compensation engine (BME280.c, lines 236-279)

The raw ADC assembly of lines 237-239 and the three datasheet formulas.
Every C float expression is embedded as the same expression over `ℚ`. -/

/-- Lines 237-238: a 20-bit ADC value from three bytes,
`((int32_t)b0 << 12) | ((int32_t)b1 << 4) | ((int32_t)b2 >> 4)`. -/
def adc20 (b0 b1 b2 : ℕ) : ℤ := ((b0 <<< 12 ||| b1 <<< 4 ||| b2 >>> 4 : ℕ) : ℤ)

/-- Line 239: a 16-bit ADC value from two bytes,
`((int32_t)b0 << 8) | (int32_t)b1`. -/
def adc16 (b0 b1 : ℕ) : ℤ := ((b0 <<< 8 ||| b1 : ℕ) : ℤ)

/-- The C cast `(int32_t)` of a float value: truncation toward zero. -/
def cIntOfRat (q : ℚ) : ℤ := q.num.tdiv q.den

/-- Lines 242-243: first temperature term. -/
def temp_var1 (adc_t : ℤ) (t : CalibTemp) : ℚ :=
  ((adc_t : ℚ) / 16384 - (t.dig_T1 : ℚ) / 1024) * (t.dig_T2 : ℚ)

/-- Lines 244-246: second temperature term. -/
def temp_var2 (adc_t : ℤ) (t : CalibTemp) : ℚ :=
  (((adc_t : ℚ) / 131072 - (t.dig_T1 : ℚ) / 8192) *
    ((adc_t : ℚ) / 131072 - (t.dig_T1 : ℚ) / 8192)) * (t.dig_T3 : ℚ)

/-- Lines 252-258: the coefficient-derived value `var1` that line 261
divides by. -/
def press_divisor (t_fine : ℤ) (pc : CalibPress) : ℚ :=
  let var1 := (t_fine : ℚ) / 2 - 64000
  let var1 := ((pc.dig_P3 : ℚ) * var1 * var1 / 524288 + (pc.dig_P2 : ℚ) * var1) / 524288
  (1 + var1 / 32768) * (pc.dig_P1 : ℚ)

/-- Lines 252-264: pressure compensation.  The division of line 261 is
Lean's total `ℚ` division (value 0 at a zero divisor, standing for the
undefined float result). -/
def pressure_hpa_of (adc_p : ℤ) (t_fine : ℤ) (pc : CalibPress) : ℚ :=
  let var1 := (t_fine : ℚ) / 2 - 64000
  let var2 := var1 * var1 * (pc.dig_P6 : ℚ) / 32768
  let var2 := var2 + var1 * (pc.dig_P5 : ℚ) * 2
  let var2 := var2 / 4 + (pc.dig_P4 : ℚ) * 65536
  let var1 := ((pc.dig_P3 : ℚ) * var1 * var1 / 524288 + (pc.dig_P2 : ℚ) * var1) / 524288
  let var1 := (1 + var1 / 32768) * (pc.dig_P1 : ℚ)
  let p := 1048576 - (adc_p : ℚ)
  let p := (p - var2 / 4096) * 6250 / var1
  let var1 := (pc.dig_P9 : ℚ) * p * p / 2147483648
  let var2 := p * (pc.dig_P8 : ℚ) / 32768
  (p + (var1 + var2 + (pc.dig_P7 : ℚ)) / 16) / 100

/-- Lines 267-272: humidity compensation before the clamp. -/
def humidity_rh_raw (adc_h : ℤ) (t_fine : ℤ) (hc : CalibHum) : ℚ :=
  let var_H := (t_fine : ℚ) - 76800
  let var_H := ((adc_h : ℚ) - ((hc.dig_H4 : ℚ) * 64 + (hc.dig_H5 : ℚ) / 16384 * var_H)) *
    ((hc.dig_H2 : ℚ) / 65536 *
      (1 + (hc.dig_H6 : ℚ) / 67108864 * var_H *
        (1 + (hc.dig_H3 : ℚ) / 67108864 * var_H)))
  var_H * (1 - (hc.dig_H1 : ℚ) * var_H / 524288)

/-- Lines 275-279: clamp humidity to [0, 100]. -/
def clampHumidity (h : ℚ) : ℚ :=
  if h > 100 then 100 else if h < 0 then 0 else h

/-! ## Driver facade (BME280.c, lines 50-83 and 90-282) -/

/-- Function `bme280_init` (lines 50-75).  `ctxNull` / `pathNull` model NULL
arguments; the context argument is the pointee when non-NULL. -/
def bme280_init (ctxNull pathNull : Bool) (ctx : Ctx) (address : ℕ) (bus : InitBus) :
    Error × Ctx × List Op :=
  if ctxNull ∨ pathNull then (.errNullPtr, ctx, [])
  else
    let ctx := { ctx with fd := -1, address := address, t_fine := 0 }
    let ctx := { ctx with fd := bus.openRes }
    if ctx.fd < 0 then (.errBusOpen, ctx, [.openBus])
    else if bus.bindRes < 0 then
      (.errAddrSet, { ctx with fd := -1 }, [.openBus, .bindAddr address, .closeFd bus.openRes])
    else (.ok, ctx, [.openBus, .bindAddr address])

/-- Function `bme280_close` (lines 77-83): close the descriptor when the context is
non-NULL and the descriptor is open, otherwise do nothing. -/
def bme280_close (ctxNull : Bool) (ctx : Ctx) : Ctx × List Op :=
  if ctxNull = false ∧ 0 ≤ ctx.fd then ({ ctx with fd := -1 }, [.closeFd ctx.fd])
  else (ctx, [])

/-- Function `bme280_read_calibration` (lines 90-163), with the context updated in
the same stages as the C code (temperature/pressure coefficients are stored
before the humidity reads happen). -/
def bme280_read_calibration (ctxNull : Bool) (ctx : Ctx) (bus : CalBus) :
    Error × Ctx × List Op :=
  if ctxNull then (.errNullPtr, ctx, [])
  else if ctx.fd < 0 then (.errNotInit, ctx, [])
  else if bus.wr1 ≠ 1 then (.errWrite, ctx, [.wrBytes [0x88]])
  else if bus.rd1 ≠ 24 then (.errRead, ctx, [.wrBytes [0x88], .rdBytes 24])
  else
    let ctx := { ctx with calib := { ctx.calib with
      temp := parseTemp bus.buf1, press := parsePress bus.buf1 } }
    let trace := [Op.wrBytes [0x88], Op.rdBytes 24]
    if bus.wr2 ≠ 1 then (.errWrite, ctx, trace ++ [.wrBytes [0xA1]])
    else if bus.rd2 ≠ 1 then (.errRead, ctx, trace ++ [.wrBytes [0xA1], .rdBytes 1])
    else
      let ctx := { ctx with calib := { ctx.calib with
        hum := { ctx.calib.hum with dig_H1 := bus.buf2 } } }
      let trace := trace ++ [Op.wrBytes [0xA1], Op.rdBytes 1]
      if bus.wr3 ≠ 1 then (.errWrite, ctx, trace ++ [.wrBytes [0xE1]])
      else if bus.rd3 ≠ 7 then (.errRead, ctx, trace ++ [.wrBytes [0xE1], .rdBytes 7])
      else
        let ctx := { ctx with calib := { ctx.calib with
          hum := parseHum ctx.calib.hum.dig_H1 bus.buf3 } }
        (.ok, ctx, trace ++ [.wrBytes [0xE1], .rdBytes 7])

/-- Function `bme280_configure` (lines 170-204). -/
def bme280_configure (ctxNull : Bool) (ctx : Ctx) (bus : CfgBus) :
    Error × Ctx × List Op :=
  if ctxNull then (.errNullPtr, ctx, [])
  else if ctx.fd < 0 then (.errNotInit, ctx, [])
  else if bus.wr1 ≠ 2 then (.errWrite, ctx, [.wrBytes [0xF2, 0x01]])
  else if bus.wr2 ≠ 2 then (.errWrite, ctx, [.wrBytes [0xF2, 0x01], .wrBytes [0xF4, 0x27]])
  else if bus.wr3 ≠ 2 then
    (.errWrite, ctx, [.wrBytes [0xF2, 0x01], .wrBytes [0xF4, 0x27], .wrBytes [0xF5, 0xA0]])
  else (.ok, ctx, [.wrBytes [0xF2, 0x01], .wrBytes [0xF4, 0x27], .wrBytes [0xF5, 0xA0]])

/-- Function `bme280_read_data` (lines 211-282).  `old` is the pointee of the output
argument before the call; the returned `DataOut` is its value after. -/
def bme280_read_data (ctxNull : Bool) (ctx : Ctx) (dataNull : Bool) (bus : DataBus)
    (old : DataOut) : Error × Ctx × DataOut × List Op :=
  if ctxNull ∨ dataNull then (.errNullPtr, ctx, old, [])
  else if ctx.fd < 0 then (.errNotInit, ctx, old, [])
  else if bus.wr ≠ 1 then (.errWrite, ctx, old, [.wrBytes [0xF7]])
  else if bus.rd ≠ 8 then (.errRead, ctx, old, [.wrBytes [0xF7], .rdBytes 8])
  else
    let buf := bus.buf
    let adc_p := adc20 (buf 0) (buf 1) (buf 2)
    let adc_t := adc20 (buf 3) (buf 4) (buf 5)
    let adc_h := adc16 (buf 6) (buf 7)
    let var1 := temp_var1 adc_t ctx.calib.temp
    let var2 := temp_var2 adc_t ctx.calib.temp
    let tf := cIntOfRat (var1 + var2)
    let tempC := (var1 + var2) / 5120
    let tempF := tempC * (1.8 : ℚ) + 32
    let pres := pressure_hpa_of adc_p tf ctx.calib.press
    let hum := clampHumidity (humidity_rh_raw adc_h tf ctx.calib.hum)
    (.ok, { ctx with t_fine := tf },
      { temperature_c := tempC, temperature_f := tempF,
        pressure_hpa := pres, humidity_rh := hum },
      [.wrBytes [0xF7], .rdBytes 8])

/-! ## Derived abbreviations for the read-data path -/

/-- The pressure ADC value assembled from the 8-byte burst (line 237). -/
def adcPOf (bus : DataBus) : ℤ := adc20 (bus.buf 0) (bus.buf 1) (bus.buf 2)

/-- The temperature ADC value assembled from the 8-byte burst (line 238). -/
def adcTOf (bus : DataBus) : ℤ := adc20 (bus.buf 3) (bus.buf 4) (bus.buf 5)

/-- The humidity ADC value assembled from the 8-byte burst (line 239). -/
def adcHOf (bus : DataBus) : ℤ := adc16 (bus.buf 6) (bus.buf 7)

/-- The sum `var1 + var2` of the temperature compensation (line 247). -/
def tSumOf (ctx : Ctx) (bus : DataBus) : ℚ :=
  temp_var1 (adcTOf bus) ctx.calib.temp + temp_var2 (adcTOf bus) ctx.calib.temp

/-- The fine temperature stored by line 247. -/
def tFineOf (ctx : Ctx) (bus : DataBus) : ℤ := cIntOfRat (tSumOf ctx bus)

/-- The humidity compensation result before the clamp (lines 267-272). -/
def rawHumOf (ctx : Ctx) (bus : DataBus) : ℚ :=
  humidity_rh_raw (adcHOf bus) (tFineOf ctx bus) ctx.calib.hum

/-! ## Concrete instances used by counterexamples and witnesses -/

/-- All-zero calibration record. -/
def calibZero : Calib :=
  { temp := { dig_T1 := 0, dig_T2 := 0, dig_T3 := 0 }
    press := { dig_P1 := 0, dig_P2 := 0, dig_P3 := 0, dig_P4 := 0, dig_P5 := 0,
               dig_P6 := 0, dig_P7 := 0, dig_P8 := 0, dig_P9 := 0 }
    hum := { dig_H1 := 0, dig_H2 := 0, dig_H3 := 0, dig_H4 := 0, dig_H5 := 0, dig_H6 := 0 } }

/-- Calibration value whose H4 coefficient is the negative 12-bit value -1. -/
def calibNegH4 : Calib := { calibZero with hum := { calibZero.hum with dig_H4 := -1 } }

/-- Datasheet-style calibration value with nonnegative H4/H5. -/
def calibSample : Calib :=
  { temp := { dig_T1 := 27504, dig_T2 := 26435, dig_T3 := -1000 }
    press := { dig_P1 := 36477, dig_P2 := -10685, dig_P3 := 3024, dig_P4 := 2855,
               dig_P5 := 140, dig_P6 := -7, dig_P7 := 15500, dig_P8 := -14600,
               dig_P9 := 6000 }
    hum := { dig_H1 := 75, dig_H2 := 363, dig_H3 := 0, dig_H4 := 321, dig_H5 := 50,
             dig_H6 := 30 } }

/-- Humidity block of 7 bytes whose packed H4 and H5 patterns both have bit 11
set (byte 3 = byte 5 = 0x80, the rest zero). -/
def bufBit11 : Fin 7 → ℕ := fun i => if i.val = 3 ∨ i.val = 5 then 128 else 0

/-- Zeroed output record. -/
def dataZero : DataOut := { temperature_c := 0, temperature_f := 0, pressure_hpa := 0, humidity_rh := 0 }

/-- Successful read-data transport delivering an all-zero burst. -/
def busZero : DataBus := { wr := 1, rd := 8, buf := fun _ => 0 }

/-- A closed (never-opened) context. -/
def ctxClosed : Ctx := { fd := -1, address := 0x76, calib := calibZero, t_fine := 0 }

/-- An open context with zero calibration. -/
def ctxOpen : Ctx := { fd := 3, address := 0x76, calib := calibZero, t_fine := 0 }

/-- Open context whose pressure coefficients make the divisor `var1` zero
(P1 = 0) while P7 = 7000 gives a recognisable formula output. -/
def ctxC3 : Ctx :=
  { fd := 3, address := 0x76, t_fine := 0,
    calib := { calibZero with press := { calibZero.press with dig_P7 := 7000 } } }

/-- Open context whose temperature coefficients make `var1 + var2` the
negative non-integer -125/128 at a zero ADC reading. -/
def ctxC4 : Ctx :=
  { fd := 3, address := 0x76, t_fine := 0,
    calib := { calibZero with temp := { dig_T1 := 1000, dig_T2 := 1, dig_T3 := 0 } } }

/-- Open context with the datasheet worked-example temperature coefficients. -/
def ctxC9 : Ctx :=
  { fd := 3, address := 0x76, t_fine := 0,
    calib := { calibZero with temp := { dig_T1 := 27504, dig_T2 := 26435, dig_T3 := -1000 } } }

/-- Transport burst encoding the raw temperature ADC value 519888. -/
def busC9 : DataBus :=
  { wr := 1, rd := 8, buf := fun i => if i.val = 3 then 126 else if i.val = 4 then 237 else 0 }

/-- Successful calibration transport delivering all-zero buffers. -/
def calBusOk : CalBus :=
  { wr1 := 1, rd1 := 24, buf1 := fun _ => 0, wr2 := 1, rd2 := 1, buf2 := 0,
    wr3 := 1, rd3 := 7, buf3 := fun _ => 0 }

/-- Successful configuration transport. -/
def cfgBusOk : CfgBus := { wr1 := 2, wr2 := 2, wr3 := 2 }

/-- Init transport where the bus opens (descriptor 5) and binding fails. -/
def initBusBindFail : InitBus := { openRes := 5, bindRes := -1 }

/-! ## Bit-level helper lemmas -/

lemma or_shiftLeft_eq_add {a : ℕ} (b : ℕ) {k : ℕ} (h : a < 2 ^ k) :
    a ||| b <<< k = a + 2 ^ k * b := by
  rw [Nat.shiftLeft_eq, Nat.mul_comm b (2 ^ k), Nat.or_comm,
    ← Nat.mul_add_lt_is_or h, Nat.add_comm]

lemma word_lo_hi (p : ℕ) : p % 256 ||| (p / 256) <<< 8 = p % 65536 + 65536 * (p / 65536) := by
  rw [or_shiftLeft_eq_add (p / 256) (show p % 256 < 2 ^ 8 by norm_num [Nat.mod_lt])]
  omega

lemma toUInt16_word (p : ℕ) (hp : p < 65536) : toUInt16 (p % 256 ||| (p / 256) <<< 8) = p := by
  rw [word_lo_hi]
  unfold toUInt16
  omega

lemma toInt16_word (v : ℤ) (h1 : -32768 ≤ v) (h2 : v < 32768) :
    toInt16 (bits16 v % 256 ||| (bits16 v / 256) <<< 8) = v := by
  rw [word_lo_hi]
  unfold toInt16 bits16
  split <;> omega

lemma toInt8_bits8 (v : ℤ) (h1 : -128 ≤ v) (h2 : v < 128) : toInt8 (bits8 v) = v := by
  unfold toInt8 bits8
  split <;> omega

lemma and_fifteen (n : ℕ) : n &&& 0x0F = n % 16 := by
  have h : (0x0F : ℕ) = 2 ^ 4 - 1 := by norm_num
  rw [h, Nat.and_pow_two_sub_one_eq_mod]

/-- The packed H4 expression of line 158 recovers the 12-bit pattern. -/
lemma h4_pattern (c : Calib) :
    humByte c 3 <<< 4 ||| humByte c 4 &&& 0x0F = bits12 c.hum.dig_H4 := by
  unfold humByte
  rw [and_fifteen, Nat.or_comm,
    or_shiftLeft_eq_add (bits12 c.hum.dig_H4 / 16)
      (show ((bits12 c.hum.dig_H5 % 16) * 16 + bits12 c.hum.dig_H4 % 16) % 16 < 2 ^ 4 by
        norm_num [Nat.mod_lt])]
  omega

/-- The packed H5 expression of line 159 recovers the 12-bit pattern. -/
lemma h5_pattern (c : Calib) :
    (humByte c 4 >>> 4) &&& 0x0F ||| humByte c 5 <<< 4 = bits12 c.hum.dig_H5 := by
  unfold humByte
  rw [and_fifteen, Nat.shiftRight_eq_div_pow,
    or_shiftLeft_eq_add (bits12 c.hum.dig_H5 / 16)
      (show ((bits12 c.hum.dig_H5 % 16) * 16 + bits12 c.hum.dig_H4 % 16) / 2 ^ 4 % 16 < 2 ^ 4 by
        norm_num [Nat.mod_lt])]
  have h4 : bits12 c.hum.dig_H4 % 16 < 16 := Nat.mod_lt _ (by norm_num)
  omega

lemma toInt16_of_lt (n : ℕ) (h : n < 32768) : toInt16 n = (n : ℤ) := by
  unfold toInt16
  split <;> omega

lemma bits12_lt (v : ℤ) : bits12 v < 4096 := by
  unfold bits12
  omega

lemma bits12_of_nonneg (v : ℤ) (h0 : 0 ≤ v) (h1 : v < 4096) : (bits12 v : ℤ) = v := by
  unfold bits12
  omega

/-! ## General helper lemmas -/

/-- C float-to-int truncation agrees with floor on nonnegative values and
with ceiling on negative ones. -/
lemma cIntOfRat_eq_floor_ceil (q : ℚ) : cIntOfRat q = if 0 ≤ q then ⌊q⌋ else ⌈q⌉ := by
  unfold cIntOfRat
  rcases le_or_lt 0 q with h | h
  · rw [if_pos h, Int.tdiv_eq_ediv (Rat.num_nonneg.mpr h) (by positivity), Rat.floor_def]
  · rw [if_neg (not_le.mpr h)]
    have hnum : q.num < 0 := Rat.num_neg.mpr h
    have h1 : q.num.tdiv q.den = -((-q.num).tdiv q.den) := by
      rw [Int.neg_tdiv]; ring
    rw [h1, Int.tdiv_eq_ediv (by omega) (by positivity)]
    have hfloor : ⌊-q⌋ = (-q).num / ((-q).den : ℤ) := Rat.floor_def
    rw [Rat.num_neg_eq_neg_num, Rat.den_neg_eq_den] at hfloor
    rw [← hfloor, Int.floor_neg, neg_neg]

/-- A closed descriptor makes all three operations fail with `errNotInit`
before any transport operation. -/
lemma notInit_calls (ctx : Ctx) (h : ctx.fd < 0) (calBus : CalBus) (cfgBus : CfgBus)
    (dataBus : DataBus) (old : DataOut) :
    bme280_read_calibration false ctx calBus = (.errNotInit, ctx, []) ∧
    bme280_configure false ctx cfgBus = (.errNotInit, ctx, []) ∧
    bme280_read_data false ctx false dataBus old = (.errNotInit, ctx, old, []) := by
  refine ⟨?_, ?_, ?_⟩
  · unfold bme280_read_calibration
    rw [if_neg (by simp), if_pos h]
  · unfold bme280_configure
    rw [if_neg (by simp), if_pos h]
  · unfold bme280_read_data
    rw [if_neg (by simp), if_pos h]

/-- Closing an already-closed (or NULL) context is a no-op. -/
lemma close_noop (ctxNull : Bool) (ctx : Ctx) (h : ctxNull = true ∨ ctx.fd < 0) :
    bme280_close ctxNull ctx = (ctx, []) := by
  unfold bme280_close
  rw [if_neg]
  rcases h with h | h
  · simp [h]
  · rintro ⟨-, hge⟩
    omega

/-- After a (non-NULL) close the descriptor is negative, unconditionally. -/
lemma close_fd_always (ctx : Ctx) : (bme280_close false ctx).1.fd < 0 := by
  unfold bme280_close
  split_ifs with hc
  · simp
  · simp at hc; simpa using hc

/-- Successful read-data path in closed form. -/
lemma read_data_ok (ctx : Ctx) (bus : DataBus) (old : DataOut)
    (hfd : 0 ≤ ctx.fd) (hwr : bus.wr = 1) (hrd : bus.rd = 8) :
    bme280_read_data false ctx false bus old =
      (.ok, { ctx with t_fine := tFineOf ctx bus },
        { temperature_c := tSumOf ctx bus / 5120,
          temperature_f := tSumOf ctx bus / 5120 * (1.8 : ℚ) + 32,
          pressure_hpa := pressure_hpa_of (adcPOf bus) (tFineOf ctx bus) ctx.calib.press,
          humidity_rh := clampHumidity (rawHumOf ctx bus) },
        [.wrBytes [0xF7], .rdBytes 8]) := by
  unfold bme280_read_data
  rw [if_neg (by simp), if_neg (by omega), if_neg (by omega), if_neg (by omega)]
  rfl

/-! ## Claim C1: calibration round trip -/

/-- Claim C1 (amended): encoding a well-formed `Calib` value per the §4.1
field layout and running the parser reconstructs it bit-exactly, provided
the 12-bit coefficients H4 and H5 are nonnegative.  (For negative H4/H5 the
parser returns the unsigned 12-bit pattern instead; see the
counterexample.) -/
theorem c1_calibration_roundtrip (c : Calib) (hwf : calibWf c)
    (h4 : 0 ≤ c.hum.dig_H4) (h5 : 0 ≤ c.hum.dig_H5) :
    parseCalibration (encodeTP c) (encodeHum1 c) (encodeHum2 c) = c := by
  obtain ⟨hT1, hT2l, hT2u, hT3l, hT3u, hP1, hP2l, hP2u, hP3l, hP3u, hP4l, hP4u, hP5l, hP5u,
    hP6l, hP6u, hP7l, hP7u, hP8l, hP8u, hP9l, hP9u, hH1, hH2l, hH2u, hH3, hH4l, hH4u,
    hH5l, hH5u, hH6l, hH6u⟩ := hwf
  have hh4 := h4_pattern c
  have hh5 := h5_pattern c
  unfold parseCalibration parseTemp parsePress parseHum encodeTP encodeHum1 encodeHum2
  norm_num [tpByte, humByte] at hh4 hh5 ⊢
  rw [hh4, hh5, toUInt16_word _ hT1, toInt16_word _ hT2l hT2u, toInt16_word _ hT3l hT3u,
    toUInt16_word _ hP1, toInt16_word _ hP2l hP2u, toInt16_word _ hP3l hP3u,
    toInt16_word _ hP4l hP4u, toInt16_word _ hP5l hP5u, toInt16_word _ hP6l hP6u,
    toInt16_word _ hP7l hP7u, toInt16_word _ hP8l hP8u, toInt16_word _ hP9l hP9u,
    toInt16_word _ hH2l hH2u, toInt8_bits8 _ hH6l hH6u,
    toInt16_of_lt _ (lt_trans (bits12_lt _) (by norm_num)),
    toInt16_of_lt _ (lt_trans (bits12_lt _) (by norm_num)),
    bits12_of_nonneg _ h4 (by omega), bits12_of_nonneg _ h5 (by omega)]

/-- Witness for claim C1 at the datasheet-style sample coefficients. -/
theorem c1_calibration_roundtrip_witness :
    calibWf calibSample ∧ 0 ≤ calibSample.hum.dig_H4 ∧ 0 ≤ calibSample.hum.dig_H5 ∧
    parseCalibration (encodeTP calibSample) (encodeHum1 calibSample) (encodeHum2 calibSample)
      = calibSample :=
  ⟨by decide, by decide, by decide,
   c1_calibration_roundtrip calibSample (by decide) (by decide) (by decide)⟩

/-- Counterexample to claim C1 as stated: the well-formed coefficient value
with H4 = -1 does not survive the round trip (it comes back as 4095). -/
theorem c1_roundtrip_fails_on_negative_H4 :
    calibWf calibNegH4 ∧
    parseCalibration (encodeTP calibNegH4) (encodeHum1 calibNegH4) (encodeHum2 calibNegH4)
      ≠ calibNegH4 := by
  constructor
  · decide
  · decide

/-! ## Claim C2: H4/H5 decoding -/

/-- Claim C2 (amended): the parser assembles H4 as
`(byte[3] shifted left 4) OR (low 4 bits of byte[4])` and H5 as
`(high 4 bits of byte[4]) OR (byte[5] shifted left 4)` but casts the 12-bit
patterns to int16 without sign extension, so both coefficients are always
nonnegative (the assembled pattern read as an unsigned number). -/
theorem c2_h4_h5_decode_unsigned (h1 : ℕ) (buf : Fin 7 → ℕ)
    (hb3 : buf 3 < 256) (hb4 : buf 4 < 256) (hb5 : buf 5 < 256) :
    (parseHum h1 buf).dig_H4 = ((16 * buf 3 + buf 4 % 16 : ℕ) : ℤ) ∧
    0 ≤ (parseHum h1 buf).dig_H4 ∧
    (parseHum h1 buf).dig_H5 = ((buf 4 / 16 + 16 * buf 5 : ℕ) : ℤ) ∧
    0 ≤ (parseHum h1 buf).dig_H5 := by
  unfold parseHum
  simp only
  rw [and_fifteen, Nat.or_comm, or_shiftLeft_eq_add (buf 3) (show buf 4 % 16 < 2 ^ 4 by omega),
    and_fifteen, Nat.shiftRight_eq_div_pow,
    or_shiftLeft_eq_add (buf 5) (show buf 4 / 2 ^ 4 % 16 < 2 ^ 4 by omega)]
  rw [toInt16_of_lt _ (by omega), toInt16_of_lt _ (by omega)]
  refine ⟨by omega, by omega, by omega, by omega⟩

/-- Witness for claim C2 at the buffer whose H4/H5 patterns have bit 11 set. -/
theorem c2_h4_h5_decode_unsigned_witness :
    (parseHum 0 bufBit11).dig_H4 = ((16 * bufBit11 3 + bufBit11 4 % 16 : ℕ) : ℤ) ∧
    0 ≤ (parseHum 0 bufBit11).dig_H4 ∧
    (parseHum 0 bufBit11).dig_H5 = ((bufBit11 4 / 16 + 16 * bufBit11 5 : ℕ) : ℤ) ∧
    0 ≤ (parseHum 0 bufBit11).dig_H5 :=
  c2_h4_h5_decode_unsigned 0 bufBit11 (by decide) (by decide) (by decide)

/-- Counterexample to claim C2 as stated: assembled 12-bit patterns with
bit 11 set (0x800) decode to +2048, not to a negative coefficient. -/
theorem c2_bit11_pattern_decodes_positive :
    (parseHum 0 bufBit11).dig_H4 = 2048 ∧ (parseHum 0 bufBit11).dig_H5 = 2048 ∧
    ¬ (parseHum 0 bufBit11).dig_H4 < 0 ∧ ¬ (parseHum 0 bufBit11).dig_H5 < 0 := by
  decide

/-! ## Claim C3: pressure division guard -/

/-- Claim C3 (amended): `bme280_read_data` applies no policy at a zero
divisor: whenever the transport succeeds it returns `BME280_OK` and stores
the pressure-formula value (whose division is unguarded) as the reading. -/
theorem c3_pressure_divide_unguarded (ctx : Ctx) (bus : DataBus) (old : DataOut)
    (hfd : 0 ≤ ctx.fd) (hwr : bus.wr = 1) (hrd : bus.rd = 8) :
    (bme280_read_data false ctx false bus old).1 = .ok ∧
    (bme280_read_data false ctx false bus old).2.2.1.pressure_hpa =
      pressure_hpa_of (adcPOf bus) (tFineOf ctx bus) ctx.calib.press := by
  rw [read_data_ok ctx bus old hfd hwr hrd]
  exact ⟨rfl, rfl⟩

/-- Witness for claim C3 (amended) at the zero-divisor context. -/
theorem c3_pressure_divide_unguarded_witness :
    (bme280_read_data false ctxC3 false busZero dataZero).1 = .ok ∧
    (bme280_read_data false ctxC3 false busZero dataZero).2.2.1.pressure_hpa =
      pressure_hpa_of (adcPOf busZero) (tFineOf ctxC3 busZero) ctxC3.calib.press :=
  c3_pressure_divide_unguarded ctxC3 busZero dataZero (by norm_num [ctxC3]) rfl rfl

/-- Counterexample to claim C3 as stated: with P1 = 0 the divisor `var1` is
exactly 0, yet `bme280_read_data` returns `BME280_OK` and stores the
formula value (here 4.375 hPa, from P7 = 7000) as a valid pressure
reading: no error result and no sentinel. -/
theorem c3_zero_divisor_returns_ok :
    press_divisor (tFineOf ctxC3 busZero) ctxC3.calib.press = 0 ∧
    (bme280_read_data false ctxC3 false busZero dataZero).1 = .ok ∧
    (bme280_read_data false ctxC3 false busZero dataZero).2.2.1.pressure_hpa = 35/8 := by
  have hsum : tSumOf ctxC3 busZero = 0 := by
    norm_num [tSumOf, temp_var1, temp_var2, adcTOf, adc20, busZero, ctxC3, calibZero]
  have htf : tFineOf ctxC3 busZero = 0 := by
    rw [show tFineOf ctxC3 busZero = cIntOfRat (tSumOf ctxC3 busZero) from rfl,
      cIntOfRat_eq_floor_ceil, hsum]
    norm_num
  have hpres : pressure_hpa_of (adcPOf busZero) 0 ctxC3.calib.press = 35/8 := by
    norm_num [pressure_hpa_of, adcPOf, adc20, busZero, ctxC3, calibZero]
  refine ⟨?_, ?_, ?_⟩
  · rw [htf]
    norm_num [press_divisor, ctxC3, calibZero]
  · rw [read_data_ok ctxC3 busZero dataZero (by norm_num [ctxC3]) rfl rfl]
  · rw [read_data_ok ctxC3 busZero dataZero (by norm_num [ctxC3]) rfl rfl]
    show pressure_hpa_of (adcPOf busZero) (tFineOf ctxC3 busZero) ctxC3.calib.press = 35/8
    rw [htf]
    exact hpres

/-! ## Claim C4: fine temperature rounding -/

/-- Claim C4 (amended): the stored fine temperature is the C cast
`(int32_t)(var1 + var2)`, i.e. truncation toward zero — the floor for
nonnegative sums and the ceiling for negative sums. -/
theorem c4_t_fine_truncates_toward_zero (ctx : Ctx) (bus : DataBus) (old : DataOut)
    (hfd : 0 ≤ ctx.fd) (hwr : bus.wr = 1) (hrd : bus.rd = 8) :
    (bme280_read_data false ctx false bus old).2.1.t_fine =
      if 0 ≤ tSumOf ctx bus then ⌊tSumOf ctx bus⌋ else ⌈tSumOf ctx bus⌉ := by
  rw [read_data_ok ctx bus old hfd hwr hrd]
  exact cIntOfRat_eq_floor_ceil _

/-- Witness for claim C4 (amended). -/
theorem c4_t_fine_truncates_toward_zero_witness :
    (bme280_read_data false ctxOpen false busZero dataZero).2.1.t_fine =
      if 0 ≤ tSumOf ctxOpen busZero then ⌊tSumOf ctxOpen busZero⌋ else ⌈tSumOf ctxOpen busZero⌉ :=
  c4_t_fine_truncates_toward_zero ctxOpen busZero dataZero (by norm_num [ctxOpen]) rfl rfl

/-- Counterexample to claim C4 as stated: with T1 = 1000, T2 = 1, T3 = 0
and a zero ADC reading, `var1 + var2 = -125/128`, whose mathematical floor
is -1, but the stored fine temperature is 0 (truncation toward zero). -/
theorem c4_t_fine_is_not_floor :
    (bme280_read_data false ctxC4 false busZero dataZero).2.1.t_fine = 0 ∧
    ⌊tSumOf ctxC4 busZero⌋ = -1 ∧
    (bme280_read_data false ctxC4 false busZero dataZero).2.1.t_fine ≠ ⌊tSumOf ctxC4 busZero⌋ := by
  have hsum : tSumOf ctxC4 busZero = -125/128 := by
    norm_num [tSumOf, temp_var1, temp_var2, adcTOf, adc20, busZero, ctxC4, calibZero]
  have hfl : ⌊tSumOf ctxC4 busZero⌋ = -1 := by
    rw [hsum]
    rw [Int.floor_eq_iff]
    norm_num
  have htf : (bme280_read_data false ctxC4 false busZero dataZero).2.1.t_fine = 0 := by
    rw [read_data_ok ctxC4 busZero dataZero (by norm_num [ctxC4]) rfl rfl]
    simp only
    rw [show tFineOf ctxC4 busZero = cIntOfRat (tSumOf ctxC4 busZero) from rfl,
      cIntOfRat_eq_floor_ceil, if_neg (by rw [hsum]; norm_num), hsum]
    rw [show ((-125 : ℚ)/128) = -(125/128) by ring, Int.ceil_neg]
    norm_num
  exact ⟨htf, hfl, by rw [htf, hfl]; norm_num⟩

/-! ## Claim C5: humidity clamp -/

/-- Claim C5: on every successful read the stored humidity is the raw
compensation result clamped to [0, 100]: below 0 it becomes exactly 0,
above 100 exactly 100, otherwise it is unchanged; the temperature and
pressure outputs are the unclamped formula values. -/
theorem c5_humidity_clamp (ctx : Ctx) (bus : DataBus) (old : DataOut)
    (hfd : 0 ≤ ctx.fd) (hwr : bus.wr = 1) (hrd : bus.rd = 8) :
    (rawHumOf ctx bus < 0 →
      (bme280_read_data false ctx false bus old).2.2.1.humidity_rh = 0) ∧
    (100 < rawHumOf ctx bus →
      (bme280_read_data false ctx false bus old).2.2.1.humidity_rh = 100) ∧
    (0 ≤ rawHumOf ctx bus → rawHumOf ctx bus ≤ 100 →
      (bme280_read_data false ctx false bus old).2.2.1.humidity_rh = rawHumOf ctx bus) ∧
    0 ≤ (bme280_read_data false ctx false bus old).2.2.1.humidity_rh ∧
    (bme280_read_data false ctx false bus old).2.2.1.humidity_rh ≤ 100 ∧
    (bme280_read_data false ctx false bus old).2.2.1.temperature_c = tSumOf ctx bus / 5120 ∧
    (bme280_read_data false ctx false bus old).2.2.1.pressure_hpa =
      pressure_hpa_of (adcPOf bus) (tFineOf ctx bus) ctx.calib.press := by
  rw [read_data_ok ctx bus old hfd hwr hrd]
  simp only [clampHumidity]
  split_ifs with h1 h2 <;>
    refine ⟨fun hneg => by linarith, fun hbig => by linarith, fun h0 h100 => by linarith,
      by linarith, by linarith, by trivial, by trivial⟩

/-- Witness for claim C5. -/
theorem c5_humidity_clamp_witness :
    0 ≤ (bme280_read_data false ctxOpen false busZero dataZero).2.2.1.humidity_rh ∧
    (bme280_read_data false ctxOpen false busZero dataZero).2.2.1.humidity_rh ≤ 100 :=
  ⟨(c5_humidity_clamp ctxOpen busZero dataZero (by norm_num [ctxOpen]) rfl rfl).2.2.2.1,
   (c5_humidity_clamp ctxOpen busZero dataZero (by norm_num [ctxOpen]) rfl rfl).2.2.2.2.1⟩

/-! ## Claim C6: lifecycle -/

/-- Claim C6: with a closed descriptor, read-calibration, configure and
read-data all return `errNotInit` without attempting any transport
operation; the same holds after `bme280_close`, whose descriptor is always
closed afterwards; and close is idempotent and a no-op on an
already-closed, never-opened or NULL context. -/
theorem c6_lifecycle (ctx : Ctx) (calBus : CalBus) (cfgBus : CfgBus)
    (dataBus : DataBus) (old : DataOut) :
    (ctx.fd < 0 →
      bme280_read_calibration false ctx calBus = (.errNotInit, ctx, []) ∧
      bme280_configure false ctx cfgBus = (.errNotInit, ctx, []) ∧
      bme280_read_data false ctx false dataBus old = (.errNotInit, ctx, old, [])) ∧
    (bme280_read_calibration false (bme280_close false ctx).1 calBus
      = (.errNotInit, (bme280_close false ctx).1, []) ∧
     bme280_configure false (bme280_close false ctx).1 cfgBus
      = (.errNotInit, (bme280_close false ctx).1, []) ∧
     bme280_read_data false (bme280_close false ctx).1 false dataBus old
      = (.errNotInit, (bme280_close false ctx).1, old, [])) ∧
    bme280_close false (bme280_close false ctx).1 = ((bme280_close false ctx).1, []) ∧
    (ctx.fd < 0 → bme280_close false ctx = (ctx, [])) ∧
    bme280_close true ctx = (ctx, []) := by
  refine ⟨fun h => notInit_calls ctx h calBus cfgBus dataBus old,
    notInit_calls _ (close_fd_always ctx) calBus cfgBus dataBus old,
    close_noop false _ (Or.inr (close_fd_always ctx)),
    fun h => close_noop false ctx (Or.inr h),
    close_noop true ctx (Or.inl rfl)⟩

/-- Witness for claim C6. -/
theorem c6_lifecycle_witness :
    bme280_read_calibration false ctxClosed calBusOk = (.errNotInit, ctxClosed, []) ∧
    bme280_close true ctxOpen = (ctxOpen, []) :=
  ⟨((c6_lifecycle ctxClosed calBusOk cfgBusOk busZero dataZero).1 (by norm_num [ctxClosed])).1,
   (c6_lifecycle ctxOpen calBusOk cfgBusOk busZero dataZero).2.2.2.2⟩

/-! ## Claim C7: no leaked handle -/

/-- Claim C7: if the bus opened but address binding failed, `bme280_init`
closes the opened descriptor, resets the stored descriptor to -1 and
returns `errAddrSet` — no failure path leaks an open handle. -/
theorem c7_no_leaked_handle (ctx : Ctx) (address : ℕ) (bus : InitBus)
    (hopen : 0 ≤ bus.openRes) (hbind : bus.bindRes < 0) :
    (bme280_init false false ctx address bus).1 = .errAddrSet ∧
    (bme280_init false false ctx address bus).2.1.fd = -1 ∧
    Op.closeFd bus.openRes ∈ (bme280_init false false ctx address bus).2.2 := by
  unfold bme280_init
  rw [if_neg (by simp)]
  simp only
  rw [if_neg (by simp; omega), if_pos hbind]
  refine ⟨rfl, rfl, by simp⟩

/-- Witness for claim C7. -/
theorem c7_no_leaked_handle_witness :
    (bme280_init false false ctxClosed 0x76 initBusBindFail).1 = .errAddrSet ∧
    (bme280_init false false ctxClosed 0x76 initBusBindFail).2.1.fd = -1 ∧
    Op.closeFd initBusBindFail.openRes ∈
      (bme280_init false false ctxClosed 0x76 initBusBindFail).2.2 :=
  c7_no_leaked_handle ctxClosed 0x76 initBusBindFail (by norm_num [initBusBindFail])
    (by norm_num [initBusBindFail])

/-! ## Claim C8: Fahrenheit derivation -/

/-- Claim C8: on every successful read, the Fahrenheit output equals the
Celsius output times 1.8 plus 32 (exactly, in the rational model). -/
theorem c8_fahrenheit_derived (ctxNull : Bool) (ctx : Ctx) (dataNull : Bool)
    (bus : DataBus) (old : DataOut)
    (hok : (bme280_read_data ctxNull ctx dataNull bus old).1 = .ok) :
    (bme280_read_data ctxNull ctx dataNull bus old).2.2.1.temperature_f =
      (bme280_read_data ctxNull ctx dataNull bus old).2.2.1.temperature_c * (1.8 : ℚ) + 32 := by
  unfold bme280_read_data at hok ⊢
  split_ifs at hok ⊢
  simp_all

/-- Witness for claim C8. -/
theorem c8_fahrenheit_derived_witness :
    (bme280_read_data false ctxOpen false busZero dataZero).2.2.1.temperature_f =
      (bme280_read_data false ctxOpen false busZero dataZero).2.2.1.temperature_c * (1.8 : ℚ) + 32 :=
  c8_fahrenheit_derived false ctxOpen false busZero dataZero
    (by rw [read_data_ok ctxOpen busZero dataZero (by norm_num [ctxOpen]) rfl rfl])

/-! ## Claim C9: datasheet worked example -/

/-- Claim C9: with T1 = 27504, T2 = 26435, T3 = -1000 and raw temperature
ADC 519888, the stored fine temperature is exactly 128422 and the Celsius
output is within 0.01 of 25.08. -/
theorem c9_datasheet_temperature :
    (bme280_read_data false ctxC9 false busC9 dataZero).2.1.t_fine = 128422 ∧
    |(bme280_read_data false ctxC9 false busC9 dataZero).2.2.1.temperature_c - 2508/100|
      ≤ 1/100 := by
  have hadc : adcTOf busC9 = 519888 := by decide
  have hlow : (128422 : ℚ) ≤ tSumOf ctxC9 busC9 := by
    rw [tSumOf, hadc]
    norm_num [temp_var1, temp_var2, ctxC9]
  have hhigh : tSumOf ctxC9 busC9 < 128423 := by
    rw [tSumOf, hadc]
    norm_num [temp_var1, temp_var2, ctxC9]
  have h0 : (0 : ℚ) ≤ tSumOf ctxC9 busC9 := le_trans (by norm_num) hlow
  constructor
  · rw [read_data_ok ctxC9 busC9 dataZero (by norm_num [ctxC9]) rfl rfl]
    show tFineOf ctxC9 busC9 = 128422
    rw [show tFineOf ctxC9 busC9 = cIntOfRat (tSumOf ctxC9 busC9) from rfl,
      cIntOfRat_eq_floor_ceil, if_pos h0, Int.floor_eq_iff]
    constructor
    · exact_mod_cast hlow
    · push_cast
      linarith
  · rw [read_data_ok ctxC9 busC9 dataZero (by norm_num [ctxC9]) rfl rfl]
    show |tSumOf ctxC9 busC9 / 5120 - 2508/100| ≤ 1/100
    rw [abs_le]
    constructor <;> nlinarith [hlow, hhigh]

/-! ## Claim C10: errors leave the output unchanged -/

/-- Claim C10: whenever `bme280_read_data` returns any error, the
caller-supplied output structure is left completely unchanged. -/
theorem c10_error_preserves_output (ctxNull : Bool) (ctx : Ctx) (dataNull : Bool)
    (bus : DataBus) (old : DataOut)
    (herr : (bme280_read_data ctxNull ctx dataNull bus old).1 ≠ .ok) :
    (bme280_read_data ctxNull ctx dataNull bus old).2.2.1 = old := by
  unfold bme280_read_data at herr ⊢
  split_ifs at herr ⊢ <;> simp_all

/-- Witness for claim C10 at a not-initialized context. -/
theorem c10_error_preserves_output_witness :
    (bme280_read_data false ctxClosed false busZero dataZero).2.2.1 = dataZero :=
  c10_error_preserves_output false ctxClosed false busZero dataZero
    (by unfold bme280_read_data ctxClosed; simp)

end BME280

